import Mathlib

/-!
Verification development for the Kalze client connector
(`src/client.ts`, class `KalzeChannel`).

The embedding below translates the per-channel connection lifecycle manager
into pure Lean definitions: the connector instance fields become a record
`ConnState`, each method of the class becomes a function `ConnState → ... →
ConnState`, and the host scheduler is made explicit — a pending
`setTimeout`/`setInterval` handle is an `Option Nat` holding the scheduled
delay, and the asynchronous transport callbacks (`onopen`, `onclose`,
`onmessage`) are modelled as operations applied to the current connector
state when the host delivers them.

Instrumentation: the record carries two ghost fields that the JavaScript
code does not store but that make its observable behaviour statable —
`trace` records every `emit(event, data)` call in order, and `callLog`
records every subscriber-callback invocation (by the identifier of the
original callback) in order.  No method reads either field.
-/

set_option maxRecDepth 100000

namespace KalzeChannel

/-- Connection state enum of `types.ts` (`ConnectionState`). -/
inductive ConnectionState
  | disconnected
  | connecting
  | connected
  | reconnecting
deriving DecidableEq, Repr

/-- Ready states of the host WebSocket primitive. -/
inductive WsReadyState
  | CONNECTING
  | OPEN
  | CLOSING
  | CLOSED
deriving DecidableEq, Repr

/-- Application payload values are never inspected by the connector; an
abstract token stands for them. -/
structure Payload where
  raw : Nat
deriving DecidableEq, Repr

/-- Outbound frames written to the transport.  The code sends
`JSON.stringify` of exactly two envelope shapes: the heartbeat ping and the
`client:event` envelope produced by `trigger`; the frame is modelled
structurally rather than as its serialized text. -/
inductive OutFrame
  | ping
  | clientEvent (data : Payload)
deriving DecidableEq, Repr

/-- The transport handle owned by the connector: the URL it was opened
with, its current ready state, and the frames sent on it. -/
structure WebSocket where
  url : String
  readyState : WsReadyState
  sent : List OutFrame
deriving DecidableEq, Repr

/-- Payload of the reserved `connection:established` control message
(`types.ts`, `ConnectionEstablished`). -/
structure ConnectionEstablished where
  socketId : String
  channel : String
  subdomain : String
  timestamp : Nat
deriving DecidableEq, Repr

/-- Resolved configuration (`Required KalzeOptions` — every field present
after the constructor applies defaults). -/
structure KalzeOptions where
  key : String
  subdomain : String
  wsUrl : String
  autoReconnect : Bool
  maxReconnectAttempts : Nat
  reconnectDelay : Nat
  debug : Bool
deriving DecidableEq, Repr

/-- Constructor-argument configuration (`KalzeOptions` of `types.ts`): all
fields but `key` and `subdomain` may be absent. -/
structure KalzeOptionsIn where
  key : String
  subdomain : String
  wsUrl : Option String
  autoReconnect : Option Bool
  maxReconnectAttempts : Option Nat
  reconnectDelay : Option Nat
  debug : Option Bool
deriving DecidableEq, Repr

/-- A subscriber callback stored in the listener registry.  `plain id` is
an application callback, identified by `id`; `onceWrap uid ev id` is the
wrapper closure that `once(ev, callback)` creates around the application
callback `id` (`uid` is a nonce: every call of `once` creates a distinct
closure, so two wrappers around the same callback are distinct set
elements).  The wrapper remembers the event name it was registered under,
which the closure captures in the source. -/
inductive Callback
  | plain (id : Nat)
  | onceWrap (uid : Nat) (ev : String) (id : Nat)
deriving DecidableEq, Repr

/-- Identifier of the original application callback behind a registered
callback. -/
def Callback.origId : Callback → Nat
  | .plain id => id
  | .onceWrap _ _ id => id

/-- Whether a registered callback is a plain (non-`once`) registration. -/
def Callback.isPlain : Callback → Bool
  | .plain _ => true
  | .onceWrap _ _ _ => false

/-- Data argument of an `emit` call.  Each variant is one of the object
shapes the source passes to `this.emit`. -/
inductive EventData
  | errorCode (code : Nat) (message : String)
  | errorMsg (message : String)
  | stateChange (state : ConnectionState)
  | disconnectedData (code : Nat) (reason : String)
  | reconnectingData (attempt : Nat) (delay : Nat)
  | reconnectFailed (attempts : Nat)
  | established (e : ConnectionEstablished)
  | appData (p : Payload)
deriving DecidableEq, Repr

/-- One recorded `emit` call: the event name and its data argument. -/
abbrev TraceEntry := String × EventData

/-- Result of parsing one incoming frame (`handleMessage`): a parse
failure, the reserved `connection:established` control message with its
typed payload (the source casts `message.data` to `ConnectionEstablished`;
per the wire contract of `types.ts` that event always carries this shape),
the reserved `pong` acknowledgment, or an application event forwarded
verbatim. -/
inductive Inbound
  | malformed
  | established (e : ConnectionEstablished)
  | pong
  | app (event : String) (p : Payload)
deriving DecidableEq, Repr

/-- The instance fields of class `KalzeChannel`, plus the two ghost
observation fields `trace` and `callLog`. -/
structure ConnState where
  name : String
  options : KalzeOptions
  ws : Option WebSocket
  socketId : Option String
  state : ConnectionState
  eventListeners : List (String × List Callback)
  reconnectAttempts : Nat
  reconnectTimeout : Option Nat
  heartbeatInterval : Option Nat
  trace : List TraceEntry
  callLog : List Nat
deriving DecidableEq, Repr

/-- Default endpoint (`DEFAULT_WS_URL`). -/
def DEFAULT_WS_URL : String := "wss://ws.websocket.cl"

/-! The listener registry.  `this.eventListeners` is a JavaScript
`Map<string, Set<EventCallback>>`; both preserve insertion order, and a
`Set` holds no duplicates, so the registry is an association list of
duplicate-free lists. -/

/-- Lookup of `eventListeners.get(event)`. -/
def lookupEvent (l : List (String × List Callback)) (ev : String) :
    Option (List Callback) :=
  (l.find? (fun p => p.1 == ev)).map (fun p => p.2)

/-- Store of `eventListeners.set(event, cbs)`: replaces the value in place
when the key is present, appends a new entry otherwise. -/
def setEvent (l : List (String × List Callback)) (ev : String)
    (cbs : List Callback) : List (String × List Callback) :=
  if l.any (fun p => p.1 == ev) then
    l.map (fun p => if p.1 == ev then (p.1, cbs) else p)
  else l ++ [(ev, cbs)]

/-- Store of `eventListeners.delete(event)`. -/
def eraseEvent (l : List (String × List Callback)) (ev : String) :
    List (String × List Callback) :=
  l.filter (fun p => p.1 != ev)

/-- The set of callbacks currently registered for an event (empty when the
map has no entry). -/
def getListeners (s : ConnState) (ev : String) : List Callback :=
  (lookupEvent s.eventListeners ev).getD []

/-- Method `off(event, callback?)`: with no callback, delete the whole
entry; with a callback, remove it from the set and delete the entry when
the set becomes empty. -/
def offListeners (l : List (String × List Callback)) (ev : String)
    (cb? : Option Callback) : List (String × List Callback) :=
  match cb? with
  | none => eraseEvent l ev
  | some cb =>
    match lookupEvent l ev with
    | none => l
    | some cbs =>
      let cbs2 := cbs.erase cb
      if cbs2.isEmpty then eraseEvent l ev else setEvent l ev cbs2

/-- Method `off` lifted to the connector state. -/
def off (s : ConnState) (ev : String) (cb? : Option Callback) : ConnState :=
  { s with eventListeners := offListeners s.eventListeners ev cb? }

/-- Method `on(event, callback)` (named `onEvent` here because `on` is a
reserved token in Lean): create the entry if absent, then `Set.add` the
callback (a no-op when already present).  The returned unsubscribe closure
is equivalent to `off event (some cb)` and is not itself part of the
state. -/
def onEvent (s : ConnState) (ev : String) (cb : Callback) : ConnState :=
  let cur := (lookupEvent s.eventListeners ev).getD []
  let cur2 := if cb ∈ cur then cur else cur ++ [cb]
  { s with eventListeners := setEvent s.eventListeners ev cur2 }

/-- Method `once(event, callback)`: registers the freshly created wrapper
closure via `on`. -/
def once (s : ConnState) (uid : Nat) (ev : String) (id : Nat) : ConnState :=
  onEvent s ev (Callback.onceWrap uid ev id)

/-- Invocation of one registered callback during dispatch.  A plain
application callback only runs application code (recorded in `callLog`).
The `once` wrapper first unsubscribes itself — `this.off(event, wrapper)`
— and then invokes the original callback. -/
def invokeCb (s : ConnState) (cb : Callback) : ConnState :=
  match cb with
  | .plain id => { s with callLog := s.callLog ++ [id] }
  | .onceWrap uid ev id =>
    let s1 := off s ev (some (Callback.onceWrap uid ev id))
    { s1 with callLog := s1.callLog ++ [id] }

/-- The `for (const callback of listeners)` loop of `emit`, iterating the
live `Set`: a callback removed from the set before being visited is
skipped (ES iteration semantics), which the per-step filter against the
current registry captures.  Callbacks only ever remove entries, so the
pending list never grows and the initial pending length bounds the number
of iterations; the fuel argument carries that bound structurally and is
never exhausted when started at `pending.length`. -/
def runCallbacksFuel : Nat → ConnState → String → List Callback → ConnState
  | _, s, _, [] => s
  | 0, s, _, _ :: _ => s
  | fuel + 1, s, ev, cb :: rest =>
    let s1 := invokeCb s cb
    runCallbacksFuel fuel s1 ev
      (rest.filter (fun c => decide (c ∈ getListeners s1 ev)))

/-- One dispatch loop over an initial listener list. -/
def runCallbacks (s : ConnState) (ev : String) (pending : List Callback) :
    ConnState :=
  runCallbacksFuel pending.length s ev pending

/-- Method `emit(event, data)`: records the call in the trace, runs the
specific-event listeners, then runs the wildcard listeners with the
`(event, data)` envelope.  Exceptions of callbacks are caught and logged in
the source, so one callback never prevents the next; the model has no
failing callbacks. -/
def emit (s : ConnState) (ev : String) (data : EventData) : ConnState :=
  let s0 := { s with trace := s.trace ++ [(ev, data)] }
  let s1 := runCallbacks s0 ev (getListeners s0 ev)
  runCallbacks s1 "*" (getListeners s1 "*")

/-- Key validation (`isValidPublicKey`): the regex
`^wpk_live_[A-Za-z0-9_-] repeated exactly 43 times $`, i.e. the literal
9-character marker `wpk_live_` followed by exactly 43 URL-safe characters. -/
def isUrlSafeChar (c : Char) : Bool :=
  (('A' ≤ c && c ≤ 'Z') || ('a' ≤ c && c ≤ 'z') ||
   ('0' ≤ c && c ≤ '9') || c = '_' || c = '-')

/-- The fixed key pattern check of `isValidPublicKey`, expressed over the
character sequence of the key: the first 9 characters are the literal
marker and exactly 43 URL-safe characters follow. -/
def isValidPublicKey (key : String) : Bool :=
  (key.data.take 9 == "wpk_live_".data) &&
  ((key.data.drop 9).length == 43) &&
  (key.data.drop 9).all isUrlSafeChar

/-- Target address construction of `connect`. -/
def buildUrl (s : ConnState) : String :=
  s.options.wsUrl ++ "/c/" ++ s.options.subdomain ++ "/" ++ s.name ++
    "?key=" ++ s.options.key

/-- Method `stopHeartbeat`: clears the interval handle when present (the
result is the same when it was already absent). -/
def stopHeartbeat (s : ConnState) : ConnState :=
  { s with heartbeatInterval := none }

/-- Method `startHeartbeat`: stops any running heartbeat and schedules the
25000-unit periodic ping. -/
def startHeartbeat (s : ConnState) : ConnState :=
  { stopHeartbeat s with heartbeatInterval := some 25000 }

/-- Method `scheduleReconnect`: nothing when auto-reconnect is off; when
the attempt counter has reached the configured maximum, emit
`reconnect:failed` and stop; otherwise increment the counter, compute the
exponential-backoff delay, emit `reconnecting`, and store the one-shot
deferred reconnect (`setTimeout` of `connect`). -/
def scheduleReconnect (s : ConnState) : ConnState :=
  if !s.options.autoReconnect then s
  else if s.reconnectAttempts ≥ s.options.maxReconnectAttempts then
    emit s "reconnect:failed" (EventData.reconnectFailed s.reconnectAttempts)
  else
    let s1 := { s with reconnectAttempts := s.reconnectAttempts + 1 }
    let delay := s1.options.reconnectDelay * 2 ^ (s1.reconnectAttempts - 1)
    let s2 := emit s1 "reconnecting"
      (EventData.reconnectingData s1.reconnectAttempts delay)
    { s2 with reconnectTimeout := some delay }

/-- Method `connect`: a no-op while already connecting or connected; an
immediate coded error event without opening a transport when the key fails
validation; otherwise the state transition to `connecting` (or
`reconnecting` when retries are already counted), the state-change event,
and the freshly opened transport handle.  The four transport callbacks the
source registers are modelled as the delivery operations below; `onopen`
itself only logs. -/
def connect (s : ConnState) : ConnState :=
  if s.state = ConnectionState.connecting ∨
     s.state = ConnectionState.connected then s
  else if isValidPublicKey s.options.key then
    let s1 := { s with
      state := if s.reconnectAttempts > 0 then ConnectionState.reconnecting
               else ConnectionState.connecting }
    let s2 := emit s1 "state:change" (EventData.stateChange s1.state)
    { s2 with ws := some (WebSocket.mk (buildUrl s2) WsReadyState.CONNECTING []) }
  else
    emit s "error" (EventData.errorCode 4403
      "Invalid public API key format. Expected wpk_live_*")

/-- Method `handleConnectionEstablished`: record the session identifier,
transition to `connected`, reset the attempt counter, start the heartbeat,
then emit `connected` with the full payload and the state-change event. -/
def handleConnectionEstablished (s : ConnState)
    (d : ConnectionEstablished) : ConnState :=
  let s1 := { s with
    socketId := some d.socketId
    state := ConnectionState.connected
    reconnectAttempts := 0 }
  let s2 := startHeartbeat s1
  let s3 := emit s2 "connected" (EventData.established d)
  emit s3 "state:change" (EventData.stateChange s3.state)

/-- Method `handleMessage`: parse failures are swallowed (logged only);
the reserved `connection:established` message goes to its handler; `pong`
is recognized and otherwise ignored; every other event is dispatched
verbatim to the listeners. -/
def handleMessage (s : ConnState) (m : Inbound) : ConnState :=
  match m with
  | Inbound.malformed => s
  | Inbound.established e => handleConnectionEstablished s e
  | Inbound.pong => s
  | Inbound.app ev p => emit s ev (EventData.appData p)

/-- Method `getCloseReasonMessage`: an explicit non-empty reason string
from the transport wins; otherwise the fixed code table; otherwise the
generic rejected message for reserved-range codes; otherwise no message. -/
def getCloseReasonMessage (code : Nat) (reason : String) : Option String :=
  if reason ≠ "" then some reason
  else if code = 4401 then some "Missing API key (?key=...)"
  else if code = 4403 then some "Invalid API key"
  else if code = 4408 then some "Connection limit exceeded"
  else if code = 4000 then some "Invalid path. Expected /c/:subdomain/:channel"
  else if code ≥ 4000 then
    some ("Connection rejected (" ++ toString code ++ ")")
  else none

/-- The terminal close-code set of `handleClose`, written as the source
writes it. -/
def isTerminalCode (code : Nat) : Bool :=
  code = 4000 || code = 4001 || code = 4002 || code = 4401 ||
  code = 4403 || code = 4408 || code = 4999

/-- Method `handleClose(code, reason)`: classify the close code (emitting
a coded error event when classification yields a message), stop the
heartbeat, clear the transport handle and session identifier, transition
to `disconnected`, emit `disconnected` and the state-change event, and —
unless the code is in the terminal set — schedule a reconnect. -/
def handleClose (s : ConnState) (code : Nat) (reason : String) : ConnState :=
  let sA :=
    match getCloseReasonMessage code reason with
    | some m => emit s "error" (EventData.errorCode code m)
    | none => s
  let sB := stopHeartbeat sA
  let sC := { sB with
    ws := none
    socketId := none
    state := ConnectionState.disconnected }
  let sD := emit sC "disconnected" (EventData.disconnectedData code reason)
  let sE := emit sD "state:change" (EventData.stateChange sD.state)
  if isTerminalCode code then sE else scheduleReconnect sE

/-- Method `trigger(data)`: sends the `client:event` envelope if and only
if the transport handle exists and its ready state is OPEN; otherwise a
silent no-op (logged in debug mode). -/
def trigger (s : ConnState) (p : Payload) : ConnState :=
  match s.ws with
  | some w =>
    if w.readyState = WsReadyState.OPEN then
      { s with ws := some { w with sent := w.sent ++ [OutFrame.clientEvent p] } }
    else s
  | none => s

/-- Method `disconnect`: clear the pending reconnect timer, stop the
heartbeat, close the transport with the normal-closure code when one is
open and null the handle, clear the session identifier, force the state to
`disconnected`, and clear every subscriber registration.  No event is
emitted.  The source calls `ws.close(1000, "Client disconnect")` but never
detaches the `onclose` callback it registered on that socket, so the close
event the call provokes is still delivered to `handleClose` afterwards;
the delivery is modelled by applying `handleClose` to the state returned
here. -/
def disconnect (s : ConnState) : ConnState :=
  let s1 := { s with reconnectTimeout := none }
  let s2 := stopHeartbeat s1
  let s3 := { s2 with ws := none }
  { s3 with
    socketId := none
    state := ConnectionState.disconnected
    eventListeners := [] }

/-- Constructor option defaulting: `wsUrl` falls back when absent or empty
(the source uses JavaScript disjunction, under which the empty string is
replaced), the remaining optional fields default via nullish coalescing. -/
def resolveOptions (o : KalzeOptionsIn) : KalzeOptions :=
  { key := o.key
    subdomain := o.subdomain
    wsUrl :=
      match o.wsUrl with
      | some u => if u = "" then DEFAULT_WS_URL else u
      | none => DEFAULT_WS_URL
    autoReconnect := o.autoReconnect.getD true
    maxReconnectAttempts := o.maxReconnectAttempts.getD 10
    reconnectDelay := o.reconnectDelay.getD 1000
    debug := o.debug.getD false }

/-- The field initializers of the class, before the constructor body runs
`connect`. -/
def initState (name : String) (o : KalzeOptionsIn) : ConnState :=
  { name := name
    options := resolveOptions o
    ws := none
    socketId := none
    state := ConnectionState.disconnected
    eventListeners := []
    reconnectAttempts := 0
    reconnectTimeout := none
    heartbeatInterval := none
    trace := []
    callLog := [] }

/-- The constructor `new KalzeChannel(channelName, options)`: initialize
the fields, resolve the options, and immediately `connect`. -/
def mkChannel (name : String) (o : KalzeOptionsIn) : ConnState :=
  connect (initState name o)

/-- Delivery of the transport `open` event: the host marks the socket
OPEN; the registered `onopen` callback only logs. -/
def deliverOpen (s : ConnState) : ConnState :=
  match s.ws with
  | some w => { s with ws := some { w with readyState := WsReadyState.OPEN } }
  | none => s

/-- One firing of the heartbeat interval callback: sends a ping frame if
and only if the transport is currently open.  The callback only runs while
the interval is scheduled. -/
def heartbeatTick (s : ConnState) : ConnState :=
  if s.heartbeatInterval.isSome then
    match s.ws with
    | some w =>
      if w.readyState = WsReadyState.OPEN then
        { s with ws := some { w with sent := w.sent ++ [OutFrame.ping] } }
      else s
    | none => s
  else s

/-- The frames sent so far on the currently owned transport (empty when no
transport is owned). -/
def wsSentFrames (s : ConnState) : List OutFrame :=
  match s.ws with
  | some w => w.sent
  | none => []

/-- The emit calls an operation performed, i.e. the part of the trace an
operation taking `s` to `t` appended. -/
def newEvents (s t : ConnState) : List TraceEntry :=
  t.trace.drop s.trace.length

/-- The session-identifier invariant of the data model: the identifier is
present exactly while the state is `connected`. -/
def Inv (s : ConnState) : Prop :=
  s.socketId.isSome = true ↔ s.state = ConnectionState.connected

/-- The operations of the Connector, as one step type: the constructor
body apart (it is covered separately via `mkChannel`), each constructor of
`Op` applies one method of the class or delivers one host callback. -/
inductive Op
  | connectOp
  | messageOp (m : Inbound)
  | establishedOp (d : ConnectionEstablished)
  | closeOp (code : Nat) (reason : String)
  | scheduleOp
  | triggerOp (p : Payload)
  | disconnectOp
  | onOp (ev : String) (cb : Callback)
  | onceOp (uid : Nat) (ev : String) (id : Nat)
  | offOp (ev : String) (cb? : Option Callback)
  | openDeliveryOp
  | heartbeatTickOp
deriving DecidableEq, Repr

/-- Interpretation of one operation on the connector state. -/
def applyOp (s : ConnState) : Op → ConnState
  | Op.connectOp => connect s
  | Op.messageOp m => handleMessage s m
  | Op.establishedOp d => handleConnectionEstablished s d
  | Op.closeOp code reason => handleClose s code reason
  | Op.scheduleOp => scheduleReconnect s
  | Op.triggerOp p => trigger s p
  | Op.disconnectOp => disconnect s
  | Op.onOp ev cb => onEvent s ev cb
  | Op.onceOp uid ev id => once s uid ev id
  | Op.offOp ev cb? => off s ev cb?
  | Op.openDeliveryOp => deliverOpen s
  | Op.heartbeatTickOp => heartbeatTick s

/-! Concrete sample data used by the witness theorems. -/

/-- A key matching the fixed pattern: the marker followed by 43 URL-safe
characters. -/
def demoKey : String := "wpk_live_0123456789012345678901234567890123456789012"

/-- Constructor options with a valid key and every optional field absent
(so every default applies). -/
def demoOptsIn : KalzeOptionsIn :=
  { key := demoKey
    subdomain := "acme"
    wsUrl := none
    autoReconnect := none
    maxReconnectAttempts := none
    reconnectDelay := none
    debug := none }

/-- Constructor options with the malformed key of the specification
scenario. -/
def badOptsIn : KalzeOptionsIn :=
  { demoOptsIn with key := "bad-key" }

/-- An arbitrary application payload. -/
def demoPayload : Payload := { raw := 7 }

/-- A sample `connection:established` payload. -/
def demoEstablished : ConnectionEstablished :=
  { socketId := "sock-1", channel := "chan", subdomain := "acme", timestamp := 5 }

/-- A connector constructed with valid options whose transport handshake
has completed (`onopen` delivered) but whose `connection:established`
control message has not yet arrived: its state is still `connecting` while
the socket is OPEN. -/
def demoOpening : ConnState := deliverOpen (mkChannel "chan" demoOptsIn)

/-- A fully established connector: constructed, handshake delivered, and
the `connection:established` message handled. -/
def demoConnected : ConnState :=
  handleMessage demoOpening (Inbound.established demoEstablished)

/-- A connector with three subscribers registered for the event `foo`: a
`once` wrapper around callback 1 (registered first) and the plain
callbacks 2 and 3. -/
def demoDispatch : ConnState :=
  { initState "chan" demoOptsIn with
    eventListeners :=
      [("foo", [Callback.onceWrap 0 "foo" 1, Callback.plain 2,
                Callback.plain 3])] }

/-- Tuple of every connector field the dispatch loop leaves untouched
(everything except the listener registry and the invocation log). -/
def coreFields (s : ConnState) :
    Option WebSocket × Option String × ConnectionState × Nat ×
    Option Nat × Option Nat × List TraceEntry × KalzeOptions × String :=
  (s.ws, s.socketId, s.state, s.reconnectAttempts, s.reconnectTimeout,
   s.heartbeatInterval, s.trace, s.options, s.name)

/-! Dispatch preservation: invoking callbacks only changes the listener
registry and the invocation log. -/

theorem invokeCb_coreFields (s : ConnState) (cb : Callback) :
    coreFields (invokeCb s cb) = coreFields s := by
  cases cb <;> rfl

theorem runCallbacksFuel_coreFields (fuel : Nat) (ev : String) :
    ∀ (pending : List Callback) (s : ConnState),
      coreFields (runCallbacksFuel fuel s ev pending) = coreFields s := by
  induction fuel with
  | zero =>
    intro pending s
    cases pending <;> rfl
  | succ n ih =>
    intro pending s
    cases pending with
    | nil => rfl
    | cons cb rest =>
      calc coreFields (runCallbacksFuel (n + 1) s ev (cb :: rest))
          = coreFields (invokeCb s cb) := ih _ _
        _ = coreFields s := invokeCb_coreFields s cb

theorem runCallbacks_coreFields (s : ConnState) (ev : String)
    (pending : List Callback) :
    coreFields (runCallbacks s ev pending) = coreFields s :=
  runCallbacksFuel_coreFields pending.length ev pending s

@[simp] theorem emit_ws (s : ConnState) (ev : String) (d : EventData) :
    (emit s ev d).ws = s.ws := by
  have h1 := runCallbacks_coreFields
    { s with trace := s.trace ++ [(ev, d)] } ev
    (getListeners { s with trace := s.trace ++ [(ev, d)] } ev)
  have h2 := runCallbacks_coreFields
    (runCallbacks { s with trace := s.trace ++ [(ev, d)] } ev
      (getListeners { s with trace := s.trace ++ [(ev, d)] } ev)) "*"
    (getListeners (runCallbacks { s with trace := s.trace ++ [(ev, d)] } ev
      (getListeners { s with trace := s.trace ++ [(ev, d)] } ev)) "*")
  exact congrArg (fun t => t.1) (h2.trans h1)

@[simp] theorem emit_socketId (s : ConnState) (ev : String) (d : EventData) :
    (emit s ev d).socketId = s.socketId := by
  have h1 := runCallbacks_coreFields
    { s with trace := s.trace ++ [(ev, d)] } ev
    (getListeners { s with trace := s.trace ++ [(ev, d)] } ev)
  have h2 := runCallbacks_coreFields
    (runCallbacks { s with trace := s.trace ++ [(ev, d)] } ev
      (getListeners { s with trace := s.trace ++ [(ev, d)] } ev)) "*"
    (getListeners (runCallbacks { s with trace := s.trace ++ [(ev, d)] } ev
      (getListeners { s with trace := s.trace ++ [(ev, d)] } ev)) "*")
  exact congrArg (fun t => t.2.1) (h2.trans h1)

@[simp] theorem emit_state (s : ConnState) (ev : String) (d : EventData) :
    (emit s ev d).state = s.state := by
  have h1 := runCallbacks_coreFields
    { s with trace := s.trace ++ [(ev, d)] } ev
    (getListeners { s with trace := s.trace ++ [(ev, d)] } ev)
  have h2 := runCallbacks_coreFields
    (runCallbacks { s with trace := s.trace ++ [(ev, d)] } ev
      (getListeners { s with trace := s.trace ++ [(ev, d)] } ev)) "*"
    (getListeners (runCallbacks { s with trace := s.trace ++ [(ev, d)] } ev
      (getListeners { s with trace := s.trace ++ [(ev, d)] } ev)) "*")
  exact congrArg (fun t => t.2.2.1) (h2.trans h1)

@[simp] theorem emit_reconnectAttempts (s : ConnState) (ev : String)
    (d : EventData) :
    (emit s ev d).reconnectAttempts = s.reconnectAttempts := by
  have h1 := runCallbacks_coreFields
    { s with trace := s.trace ++ [(ev, d)] } ev
    (getListeners { s with trace := s.trace ++ [(ev, d)] } ev)
  have h2 := runCallbacks_coreFields
    (runCallbacks { s with trace := s.trace ++ [(ev, d)] } ev
      (getListeners { s with trace := s.trace ++ [(ev, d)] } ev)) "*"
    (getListeners (runCallbacks { s with trace := s.trace ++ [(ev, d)] } ev
      (getListeners { s with trace := s.trace ++ [(ev, d)] } ev)) "*")
  exact congrArg (fun t => t.2.2.2.1) (h2.trans h1)

@[simp] theorem emit_reconnectTimeout (s : ConnState) (ev : String)
    (d : EventData) :
    (emit s ev d).reconnectTimeout = s.reconnectTimeout := by
  have h1 := runCallbacks_coreFields
    { s with trace := s.trace ++ [(ev, d)] } ev
    (getListeners { s with trace := s.trace ++ [(ev, d)] } ev)
  have h2 := runCallbacks_coreFields
    (runCallbacks { s with trace := s.trace ++ [(ev, d)] } ev
      (getListeners { s with trace := s.trace ++ [(ev, d)] } ev)) "*"
    (getListeners (runCallbacks { s with trace := s.trace ++ [(ev, d)] } ev
      (getListeners { s with trace := s.trace ++ [(ev, d)] } ev)) "*")
  exact congrArg (fun t => t.2.2.2.2.1) (h2.trans h1)

@[simp] theorem emit_heartbeatInterval (s : ConnState) (ev : String)
    (d : EventData) :
    (emit s ev d).heartbeatInterval = s.heartbeatInterval := by
  have h1 := runCallbacks_coreFields
    { s with trace := s.trace ++ [(ev, d)] } ev
    (getListeners { s with trace := s.trace ++ [(ev, d)] } ev)
  have h2 := runCallbacks_coreFields
    (runCallbacks { s with trace := s.trace ++ [(ev, d)] } ev
      (getListeners { s with trace := s.trace ++ [(ev, d)] } ev)) "*"
    (getListeners (runCallbacks { s with trace := s.trace ++ [(ev, d)] } ev
      (getListeners { s with trace := s.trace ++ [(ev, d)] } ev)) "*")
  exact congrArg (fun t => t.2.2.2.2.2.1) (h2.trans h1)

@[simp] theorem emit_trace (s : ConnState) (ev : String) (d : EventData) :
    (emit s ev d).trace = s.trace ++ [(ev, d)] := by
  have h1 := runCallbacks_coreFields
    { s with trace := s.trace ++ [(ev, d)] } ev
    (getListeners { s with trace := s.trace ++ [(ev, d)] } ev)
  have h2 := runCallbacks_coreFields
    (runCallbacks { s with trace := s.trace ++ [(ev, d)] } ev
      (getListeners { s with trace := s.trace ++ [(ev, d)] } ev)) "*"
    (getListeners (runCallbacks { s with trace := s.trace ++ [(ev, d)] } ev
      (getListeners { s with trace := s.trace ++ [(ev, d)] } ev)) "*")
  exact congrArg (fun t => t.2.2.2.2.2.2.1) (h2.trans h1)

@[simp] theorem emit_options (s : ConnState) (ev : String) (d : EventData) :
    (emit s ev d).options = s.options := by
  have h1 := runCallbacks_coreFields
    { s with trace := s.trace ++ [(ev, d)] } ev
    (getListeners { s with trace := s.trace ++ [(ev, d)] } ev)
  have h2 := runCallbacks_coreFields
    (runCallbacks { s with trace := s.trace ++ [(ev, d)] } ev
      (getListeners { s with trace := s.trace ++ [(ev, d)] } ev)) "*"
    (getListeners (runCallbacks { s with trace := s.trace ++ [(ev, d)] } ev
      (getListeners { s with trace := s.trace ++ [(ev, d)] } ev)) "*")
  exact congrArg (fun t => t.2.2.2.2.2.2.2.1) (h2.trans h1)

@[simp] theorem emit_name (s : ConnState) (ev : String) (d : EventData) :
    (emit s ev d).name = s.name := by
  have h1 := runCallbacks_coreFields
    { s with trace := s.trace ++ [(ev, d)] } ev
    (getListeners { s with trace := s.trace ++ [(ev, d)] } ev)
  have h2 := runCallbacks_coreFields
    (runCallbacks { s with trace := s.trace ++ [(ev, d)] } ev
      (getListeners { s with trace := s.trace ++ [(ev, d)] } ev)) "*"
    (getListeners (runCallbacks { s with trace := s.trace ++ [(ev, d)] } ev
      (getListeners { s with trace := s.trace ++ [(ev, d)] } ev)) "*")
  exact congrArg (fun t => t.2.2.2.2.2.2.2.2) (h2.trans h1)

theorem newEvents_of_append (s t : ConnState) (l : List TraceEntry)
    (h : t.trace = s.trace ++ l) : newEvents s t = l := by
  rw [newEvents, h, List.drop_left]

/-- Claim C8: handling a received `connection:established` control message
records the session identifier, transitions the state to `connected`,
resets the reconnect attempt counter to zero — all settled in the state
before and while the heartbeat runs — and then emits the `connected` event
with the full established payload followed by the `state:change` event, in
that order. -/
theorem established_order_and_reset (s : ConnState)
    (d : ConnectionEstablished) :
    (handleConnectionEstablished s d).socketId = some d.socketId ∧
    (handleConnectionEstablished s d).state = ConnectionState.connected ∧
    (handleConnectionEstablished s d).reconnectAttempts = 0 ∧
    (handleConnectionEstablished s d).heartbeatInterval = some 25000 ∧
    newEvents s (handleConnectionEstablished s d) =
      [("connected", EventData.established d),
       ("state:change", EventData.stateChange ConnectionState.connected)] := by
  refine ⟨?_, ?_, ?_, ?_, ?_⟩ <;>
    simp [handleConnectionEstablished, startHeartbeat, stopHeartbeat,
      newEvents, List.append_assoc]

/-- Claim C4: when reconnect scheduling runs with the attempt counter at
the configured maximum (and auto-reconnect on, so that scheduling is
reached at all), exactly one `reconnect:failed` event carrying the final
attempt count is emitted, the counter is not incremented, and no deferred
reconnect is arranged (the pending-timer slot is untouched, so no
automatic retry is ever set up by this call). -/
theorem reconnectFailed_terminal (s : ConnState)
    (hauto : s.options.autoReconnect = true)
    (hmax : s.reconnectAttempts = s.options.maxReconnectAttempts) :
    (scheduleReconnect s).reconnectAttempts = s.reconnectAttempts ∧
    (scheduleReconnect s).reconnectTimeout = s.reconnectTimeout ∧
    newEvents s (scheduleReconnect s) =
      [("reconnect:failed", EventData.reconnectFailed s.reconnectAttempts)] := by
  have hge : s.reconnectAttempts ≥ s.options.maxReconnectAttempts :=
    le_of_eq hmax.symm
  refine ⟨?_, ?_, ?_⟩ <;>
    simp [scheduleReconnect, hauto, hge, newEvents]

/-- Witness for C4 at a concrete connector whose counter sits at the
default maximum of ten attempts. -/
theorem reconnectFailed_terminal_witness :
    (scheduleReconnect { initState "chan" demoOptsIn with
        reconnectAttempts := 10 }).reconnectAttempts = 10 ∧
    (scheduleReconnect { initState "chan" demoOptsIn with
        reconnectAttempts := 10 }).reconnectTimeout = none ∧
    newEvents { initState "chan" demoOptsIn with reconnectAttempts := 10 }
      (scheduleReconnect { initState "chan" demoOptsIn with
        reconnectAttempts := 10 }) =
      [("reconnect:failed", EventData.reconnectFailed 10)] :=
  reconnectFailed_terminal
    { initState "chan" demoOptsIn with reconnectAttempts := 10 }
    (by decide) (by decide)

/-- Claim C6: a connect attempt from the `disconnected` state with a key
failing the fixed pattern emits exactly one error event with the reserved
invalid-key code 4403, opens no transport, leaves the state at
`disconnected`, and does not touch the reconnect attempt counter. -/
theorem invalidKey_connect_noTransport (s : ConnState)
    (hstate : s.state = ConnectionState.disconnected)
    (hkey : isValidPublicKey s.options.key = false) :
    (connect s).state = ConnectionState.disconnected ∧
    (connect s).ws = s.ws ∧
    (connect s).reconnectAttempts = s.reconnectAttempts ∧
    newEvents s (connect s) =
      [("error", EventData.errorCode 4403
        "Invalid public API key format. Expected wpk_live_*")] := by
  refine ⟨?_, ?_, ?_, ?_⟩ <;>
    simp [connect, hstate, hkey, newEvents]

/-- Witness for C6: the specification scenario — construction with the key
`bad-key` yields the immediate 4403 error, a `disconnected` state, no
transport, and a zero attempt counter. -/
theorem invalidKey_connect_noTransport_witness :
    (mkChannel "chan" badOptsIn).state = ConnectionState.disconnected ∧
    (mkChannel "chan" badOptsIn).ws = none ∧
    (mkChannel "chan" badOptsIn).reconnectAttempts = 0 ∧
    newEvents (initState "chan" badOptsIn) (mkChannel "chan" badOptsIn) =
      [("error", EventData.errorCode 4403
        "Invalid public API key format. Expected wpk_live_*")] :=
  invalidKey_connect_noTransport (initState "chan" badOptsIn)
    (by decide) (by decide)

theorem scheduleReconnect_trace (s : ConnState) :
    ∃ tail, (scheduleReconnect s).trace = s.trace ++ tail ∧
      ∀ e ∈ tail, e.1 = "reconnect:failed" ∨ e.1 = "reconnecting" := by
  unfold scheduleReconnect
  by_cases hauto : s.options.autoReconnect
  · by_cases hge : s.reconnectAttempts ≥ s.options.maxReconnectAttempts
    · refine ⟨[("reconnect:failed",
        EventData.reconnectFailed s.reconnectAttempts)], ?_, ?_⟩ <;>
        simp [hauto, hge]
    · refine ⟨[("reconnecting", EventData.reconnectingData
        (s.reconnectAttempts + 1)
        (s.options.reconnectDelay * 2 ^ (s.reconnectAttempts + 1 - 1)))],
        ?_, ?_⟩ <;> simp [hauto, hge]
  · exact ⟨[], by simp [hauto], by simp⟩

/-- Claim C1: a transport close whose code lies in the terminal set
(4000, 4001, 4002, 4401, 4403, 4408, 4999) schedules no reconnect — the
attempt counter is not incremented, the pending-reconnect slot is not
touched, the emit calls of the close handler are exactly the optional
classification error followed by `disconnected` and `state:change`, and in
particular no `reconnecting` event is emitted — regardless of the
auto-reconnect setting or the remaining attempts. -/
theorem terminalClose_noReconnect (s : ConnState) (code : Nat)
    (reason : String) (hterm : isTerminalCode code = true) :
    (handleClose s code reason).reconnectAttempts = s.reconnectAttempts ∧
    (handleClose s code reason).reconnectTimeout = s.reconnectTimeout ∧
    newEvents s (handleClose s code reason) =
      (match getCloseReasonMessage code reason with
       | some m => [("error", EventData.errorCode code m)]
       | none => []) ++
      [("disconnected", EventData.disconnectedData code reason),
       ("state:change", EventData.stateChange ConnectionState.disconnected)] ∧
    ∀ d, ("reconnecting", d) ∉ newEvents s (handleClose s code reason) := by
  cases hm : getCloseReasonMessage code reason <;>
    refine ⟨?_, ?_, ?_, ?_⟩ <;>
    simp [handleClose, hm, hterm, stopHeartbeat, newEvents, List.append_assoc]

/-- Witness for C1 at the unauthorized code 4401 on an established
connector with auto-reconnect enabled and all ten attempts remaining. -/
theorem terminalClose_noReconnect_witness :
    (handleClose demoConnected 4401 "").reconnectAttempts = 0 ∧
    (handleClose demoConnected 4401 "").reconnectTimeout = none ∧
    newEvents demoConnected (handleClose demoConnected 4401 "") =
      [("error", EventData.errorCode 4401 "Missing API key (?key=...)"),
       ("disconnected", EventData.disconnectedData 4401 ""),
       ("state:change", EventData.stateChange ConnectionState.disconnected)] ∧
    ∀ d, ("reconnecting", d) ∉
      newEvents demoConnected (handleClose demoConnected 4401 "") := by
  obtain ⟨h1, h2, h3, h4⟩ :=
    terminalClose_noReconnect demoConnected 4401 "" (by decide)
  refine ⟨?_, ?_, ?_, h4⟩
  · rw [h1]; decide
  · rw [h2]; decide
  · rw [h3]; decide

/-- Claim C3: a transport close with a non-terminal code, auto-reconnect
enabled, and attempts remaining increments the attempt counter, arranges
exactly one deferred reconnect with delay
base times two to the power of (attempt minus one), and emits exactly one
`reconnecting` event carrying that attempt number and delay (after the
close events); with base 1000 the delays for attempts 1, 2 and 3 are
1000, 2000 and 4000. -/
theorem nonterminalClose_schedulesBackoff (s : ConnState) (code : Nat)
    (reason : String)
    (hterm : isTerminalCode code = false)
    (hauto : s.options.autoReconnect = true)
    (hlt : s.reconnectAttempts < s.options.maxReconnectAttempts) :
    (handleClose s code reason).reconnectAttempts = s.reconnectAttempts + 1 ∧
    (handleClose s code reason).reconnectTimeout =
      some (s.options.reconnectDelay * 2 ^ s.reconnectAttempts) ∧
    newEvents s (handleClose s code reason) =
      (match getCloseReasonMessage code reason with
       | some m => [("error", EventData.errorCode code m)]
       | none => []) ++
      [("disconnected", EventData.disconnectedData code reason),
       ("state:change", EventData.stateChange ConnectionState.disconnected),
       ("reconnecting", EventData.reconnectingData (s.reconnectAttempts + 1)
         (s.options.reconnectDelay * 2 ^ s.reconnectAttempts))] := by
  have hnge : ¬ s.reconnectAttempts ≥ s.options.maxReconnectAttempts :=
    not_le.mpr hlt
  cases hm : getCloseReasonMessage code reason <;>
    refine ⟨?_, ?_, ?_⟩ <;>
    simp [handleClose, scheduleReconnect, hm, hterm, hauto, hnge,
      stopHeartbeat, newEvents, List.append_assoc]

/-- Witness for C3: third consecutive failure with the default base delay
1000 — the counter moves from 2 to 3 and the scheduled delay is 4000. -/
theorem nonterminalClose_schedulesBackoff_witness :
    (handleClose { initState "chan" demoOptsIn with reconnectAttempts := 2 }
      1006 "").reconnectAttempts = 3 ∧
    (handleClose { initState "chan" demoOptsIn with reconnectAttempts := 2 }
      1006 "").reconnectTimeout = some 4000 ∧
    newEvents { initState "chan" demoOptsIn with reconnectAttempts := 2 }
      (handleClose { initState "chan" demoOptsIn with reconnectAttempts := 2 }
        1006 "") =
      [("disconnected", EventData.disconnectedData 1006 ""),
       ("state:change", EventData.stateChange ConnectionState.disconnected),
       ("reconnecting", EventData.reconnectingData 3 4000)] := by
  obtain ⟨h1, h2, h3⟩ :=
    nonterminalClose_schedulesBackoff
      { initState "chan" demoOptsIn with reconnectAttempts := 2 }
      1006 "" (by decide) (by decide) (by decide)
  refine ⟨?_, ?_, ?_⟩
  · rw [h1]
  · rw [h2]; decide
  · rw [h3]; decide

theorem handleClose_trace_decomp (s : ConnState) (code : Nat)
    (reason : String) :
    ∃ tail, (handleClose s code reason).trace =
      s.trace ++
        ((match getCloseReasonMessage code reason with
          | some m => [("error", EventData.errorCode code m)]
          | none => []) ++
         [("disconnected", EventData.disconnectedData code reason),
          ("state:change",
            EventData.stateChange ConnectionState.disconnected)]) ++ tail ∧
      ∀ e ∈ tail, e.1 = "reconnect:failed" ∨ e.1 = "reconnecting" := by
  by_cases ht : isTerminalCode code
  · refine ⟨[], ?_, by simp⟩
    cases hm : getCloseReasonMessage code reason <;>
      simp [handleClose, hm, ht, stopHeartbeat, List.append_assoc]
  · have hb : isTerminalCode code = false := by
      simpa using ht
    cases hm : getCloseReasonMessage code reason with
    | none =>
      obtain ⟨tail, htr, hn⟩ := scheduleReconnect_trace
        (emit (emit { stopHeartbeat s with
            ws := none, socketId := none,
            state := ConnectionState.disconnected }
          "disconnected" (EventData.disconnectedData code reason))
          "state:change" (EventData.stateChange ConnectionState.disconnected))
      refine ⟨tail, ?_, hn⟩
      have hcl : handleClose s code reason = scheduleReconnect
          (emit (emit { stopHeartbeat s with
              ws := none, socketId := none,
              state := ConnectionState.disconnected }
            "disconnected" (EventData.disconnectedData code reason))
            "state:change"
            (EventData.stateChange ConnectionState.disconnected)) := by
        simp [handleClose, hm, hb]
      rw [hcl, htr]
      simp [stopHeartbeat, List.append_assoc]
    | some m =>
      obtain ⟨tail, htr, hn⟩ := scheduleReconnect_trace
        (emit (emit { stopHeartbeat
            (emit s "error" (EventData.errorCode code m)) with
            ws := none, socketId := none,
            state := ConnectionState.disconnected }
          "disconnected" (EventData.disconnectedData code reason))
          "state:change" (EventData.stateChange ConnectionState.disconnected))
      refine ⟨tail, ?_, hn⟩
      have hcl : handleClose s code reason = scheduleReconnect
          (emit (emit { stopHeartbeat
              (emit s "error" (EventData.errorCode code m)) with
              ws := none, socketId := none,
              state := ConnectionState.disconnected }
            "disconnected" (EventData.disconnectedData code reason))
            "state:change"
            (EventData.stateChange ConnectionState.disconnected)) := by
        simp [handleClose, hm, hb]
      rw [hcl, htr]
      simp [stopHeartbeat, List.append_assoc]

/-- Claim C7: the close handler classifies the close code before emitting
`disconnected` — an explicit non-empty transport reason is used verbatim
as the error message, the fixed table otherwise supplies the message for
the codes 4401 (missing credential), 4403 (invalid credential), 4408
(connection limit), 4000 (invalid path) or the generic rejected message
for any other reserved-range code, a code below the reserved range with no
reason yields no message — and the emit calls of the handler start with
the classification error (when a message exists) followed by
`disconnected` and the state change, the error strictly first; a close
below the reserved range with no reason emits no error event at all. -/
theorem closeCode_classification (s : ConnState) (code : Nat)
    (reason : String) :
    (reason ≠ "" → getCloseReasonMessage code reason = some reason) ∧
    getCloseReasonMessage 4401 "" = some "Missing API key (?key=...)" ∧
    getCloseReasonMessage 4403 "" = some "Invalid API key" ∧
    getCloseReasonMessage 4408 "" = some "Connection limit exceeded" ∧
    getCloseReasonMessage 4000 "" =
      some "Invalid path. Expected /c/:subdomain/:channel" ∧
    (4000 ≤ code → code ≠ 4000 → code ≠ 4401 → code ≠ 4403 → code ≠ 4408 →
      getCloseReasonMessage code "" =
        some ("Connection rejected (" ++ toString code ++ ")")) ∧
    (code < 4000 → getCloseReasonMessage code "" = none) ∧
    (newEvents s (handleClose s code reason)).take
        ((match getCloseReasonMessage code reason with
          | some m => [("error", EventData.errorCode code m)]
          | none => []).length + 2) =
      (match getCloseReasonMessage code reason with
       | some m => [("error", EventData.errorCode code m)]
       | none => []) ++
      [("disconnected", EventData.disconnectedData code reason),
       ("state:change", EventData.stateChange ConnectionState.disconnected)] ∧
    (code < 4000 → reason = "" →
      ∀ d, ("error", d) ∉ newEvents s (handleClose s code reason)) := by
  obtain ⟨tail, htr, hn⟩ := handleClose_trace_decomp s code reason
  have hdelta : newEvents s (handleClose s code reason) =
      ((match getCloseReasonMessage code reason with
        | some m => [("error", EventData.errorCode code m)]
        | none => []) ++
       [("disconnected", EventData.disconnectedData code reason),
        ("state:change",
          EventData.stateChange ConnectionState.disconnected)]) ++ tail := by
    rw [newEvents, htr, List.append_assoc, List.drop_left]
  refine ⟨?_, rfl, rfl, rfl, rfl, ?_, ?_, ?_, ?_⟩
  · intro h
    simp [getCloseReasonMessage, h]
  · intro h0 h1 h2 h3 h4
    simp [getCloseReasonMessage, h1, h2, h3, h4, h0]
  · intro h
    have h1 : code ≠ 4401 := by omega
    have h2 : code ≠ 4403 := by omega
    have h3 : code ≠ 4408 := by omega
    have h4 : code ≠ 4000 := by omega
    have h5 : ¬ 4000 ≤ code := by omega
    simp [getCloseReasonMessage, h1, h2, h3, h4, h5]
  · rw [hdelta, List.append_assoc, List.take_append 2]
    rfl
  · intro hlt hre d hmem
    have hnone : getCloseReasonMessage code reason = none := by
      have h1 : code ≠ 4401 := by omega
      have h2 : code ≠ 4403 := by omega
      have h3 : code ≠ 4408 := by omega
      have h4 : code ≠ 4000 := by omega
      have h5 : ¬ 4000 ≤ code := by omega
      simp [getCloseReasonMessage, hre, h1, h2, h3, h4, h5]
    rw [hdelta, hnone, List.nil_append] at hmem
    rcases List.mem_append.mp hmem with hL | hT
    · simp at hL
    · rcases hn _ hT with hname | hname <;> simp at hname

/-- Witness for C7 at the missing-credential scenario: code 4401 with no
reason yields the fixed message, which is emitted as an error strictly
before the `disconnected` event; and a below-range close (1005, no
reason) emits no error event. -/
theorem closeCode_classification_witness :
    getCloseReasonMessage 4401 "" = some "Missing API key (?key=...)" ∧
    (newEvents demoConnected (handleClose demoConnected 4401 "")).take 3 =
      [("error", EventData.errorCode 4401 "Missing API key (?key=...)"),
       ("disconnected", EventData.disconnectedData 4401 ""),
       ("state:change", EventData.stateChange ConnectionState.disconnected)] ∧
    ∀ d, ("error", d) ∉
      newEvents demoConnected (handleClose demoConnected 1005 "") := by
  obtain ⟨-, hb, -, -, -, -, -, htake, -⟩ :=
    closeCode_classification demoConnected 4401 ""
  obtain ⟨-, -, -, -, -, -, -, -, hnoerr⟩ :=
    closeCode_classification demoConnected 1005 ""
  refine ⟨hb, ?_, hnoerr (by decide) rfl⟩
  rw [hb] at htake
  simpa using htake

/-- Claim C5, counterexample: `trigger` guards on transport openness, not
on the `connected` state.  A connector whose handshake has completed but
whose `connection:established` message has not yet arrived is still in
state `connecting` with an OPEN socket, and `trigger` does send a frame
there — so the claim that no frame is sent whenever the state is not
`connected` is false on the code. -/
theorem trigger_connecting_sends :
    demoOpening.state = ConnectionState.connecting ∧
    demoOpening.state ≠ ConnectionState.connected ∧
    wsSentFrames (trigger demoOpening demoPayload) =
      wsSentFrames demoOpening ++ [OutFrame.clientEvent demoPayload] := by
  refine ⟨by decide, by decide, by decide⟩

/-- Claim C5 as amended: `trigger(payload)` is a complete no-op — no frame
sent, the connector state unchanged — whenever the transport is not open
(in particular whenever no transport handle exists), and when the
transport is open it sends exactly the envelope carrying the event name
`client:event` and the payload; the guard is the transport ready state,
not the `connected` connection state. -/
theorem trigger_openGuard (s : ConnState) (p : Payload) :
    (s.ws = none → trigger s p = s) ∧
    (∀ w, s.ws = some w → w.readyState ≠ WsReadyState.OPEN →
      trigger s p = s) ∧
    (∀ w, s.ws = some w → w.readyState = WsReadyState.OPEN →
      trigger s p = { s with
        ws := some { w with sent := w.sent ++ [OutFrame.clientEvent p] } }) := by
  refine ⟨?_, ?_, ?_⟩
  · intro h
    simp [trigger, h]
  · intro w hw hr
    simp [trigger, hw, hr]
  · intro w hw hr
    simp [trigger, hw, hr]

/-- Witness for C5 as amended: a freshly initialized connector has no
transport and `trigger` leaves it untouched; the opened demo connector
gets exactly one `client:event` frame. -/
theorem trigger_openGuard_witness :
    trigger (initState "chan" demoOptsIn) demoPayload =
      initState "chan" demoOptsIn ∧
    wsSentFrames (trigger demoOpening demoPayload) =
      wsSentFrames demoOpening ++ [OutFrame.clientEvent demoPayload] := by
  constructor
  · exact (trigger_openGuard (initState "chan" demoOptsIn) demoPayload).1 rfl
  · have h := (trigger_openGuard demoOpening demoPayload).2.2
      { url := "wss://ws.websocket.cl/c/acme/chan?key=" ++ demoKey
        readyState := WsReadyState.OPEN
        sent := [] } (by decide) rfl
    rw [h]
    decide

/-- Claim C2: the synchronous teardown of `disconnect()` does clear both
timers, null the transport handle and session identifier, force the state
to `disconnected`, clear every subscriber registration, and emit nothing —
but the claim that no further callback of the torn-down Connector can fire
is violated.  `disconnect` calls `ws.close(1000, "Client disconnect")`
without detaching the `onclose` callback it registered, so the transport
still delivers its close event to `handleClose`; 1000 is not in the
terminal code set, auto-reconnect is on by default, and the close handler
of the torn-down connector therefore increments the attempt counter and
schedules a reconnect with delay 1000. -/
theorem disconnect_zombieClose_reconnects :
    (disconnect demoConnected).reconnectTimeout = none ∧
    (disconnect demoConnected).heartbeatInterval = none ∧
    (disconnect demoConnected).ws = none ∧
    (disconnect demoConnected).socketId = none ∧
    (disconnect demoConnected).state = ConnectionState.disconnected ∧
    (disconnect demoConnected).eventListeners = [] ∧
    (disconnect demoConnected).trace = demoConnected.trace ∧
    (handleClose (disconnect demoConnected) 1000
      "Client disconnect").reconnectAttempts = 1 ∧
    (handleClose (disconnect demoConnected) 1000
      "Client disconnect").reconnectTimeout = some 1000 := by
  refine ⟨by decide, by decide, by decide, by decide, by decide, by decide,
    by decide, by decide, by decide⟩

theorem inv_emit (s : ConnState) (ev : String) (d : EventData)
    (h : Inv s) : Inv (emit s ev d) := by
  simpa [Inv] using h

theorem inv_established (s : ConnState) (d : ConnectionEstablished) :
    Inv (handleConnectionEstablished s d) := by
  simp [Inv, handleConnectionEstablished, startHeartbeat, stopHeartbeat]

theorem inv_schedule (s : ConnState) (h : Inv s) :
    Inv (scheduleReconnect s) := by
  unfold scheduleReconnect
  split
  · exact h
  · split
    · exact inv_emit _ _ _ h
    · simpa [Inv] using h

theorem inv_close_core (s2 : ConnState) (code : Nat) (reason : String) :
    Inv (if isTerminalCode code then
      emit (emit { s2 with
          ws := none, socketId := none,
          state := ConnectionState.disconnected }
        "disconnected" (EventData.disconnectedData code reason))
        "state:change" (EventData.stateChange ConnectionState.disconnected)
    else scheduleReconnect
      (emit (emit { s2 with
          ws := none, socketId := none,
          state := ConnectionState.disconnected }
        "disconnected" (EventData.disconnectedData code reason))
        "state:change"
        (EventData.stateChange ConnectionState.disconnected))) := by
  split
  · simp [Inv]
  · apply inv_schedule
    simp [Inv]

theorem inv_close (s : ConnState) (code : Nat) (reason : String) :
    Inv (handleClose s code reason) := by
  cases hm : getCloseReasonMessage code reason with
  | none =>
    have hcl : handleClose s code reason =
        (if isTerminalCode code then
          emit (emit { stopHeartbeat s with
              ws := none, socketId := none,
              state := ConnectionState.disconnected }
            "disconnected" (EventData.disconnectedData code reason))
            "state:change"
            (EventData.stateChange ConnectionState.disconnected)
        else scheduleReconnect
          (emit (emit { stopHeartbeat s with
              ws := none, socketId := none,
              state := ConnectionState.disconnected }
            "disconnected" (EventData.disconnectedData code reason))
            "state:change"
            (EventData.stateChange ConnectionState.disconnected))) := by
      simp [handleClose, hm]
    rw [hcl]
    exact inv_close_core (stopHeartbeat s) code reason
  | some m =>
    have hcl : handleClose s code reason =
        (if isTerminalCode code then
          emit (emit { stopHeartbeat
              (emit s "error" (EventData.errorCode code m)) with
              ws := none, socketId := none,
              state := ConnectionState.disconnected }
            "disconnected" (EventData.disconnectedData code reason))
            "state:change"
            (EventData.stateChange ConnectionState.disconnected)
        else scheduleReconnect
          (emit (emit { stopHeartbeat
              (emit s "error" (EventData.errorCode code m)) with
              ws := none, socketId := none,
              state := ConnectionState.disconnected }
            "disconnected" (EventData.disconnectedData code reason))
            "state:change"
            (EventData.stateChange ConnectionState.disconnected))) := by
      simp [handleClose, hm]
    rw [hcl]
    exact inv_close_core (stopHeartbeat
      (emit s "error" (EventData.errorCode code m))) code reason

theorem inv_connect (s : ConnState) (h : Inv s) : Inv (connect s) := by
  unfold connect
  split
  · exact h
  · rename_i hguard
    split
    · have hc : s.state ≠ ConnectionState.connected := fun hc =>
        hguard (Or.inr hc)
      have hs : s.socketId.isSome = false := by
        cases hiso : s.socketId.isSome
        · rfl
        · exact absurd (h.mp hiso) hc
      simp only [Inv]
      simp [hs]
      split <;> simp
    · exact inv_emit _ _ _ h

/-- Claim C9: the invariant that the session identifier is present exactly
while the state is `connected` holds after construction and is preserved
by every operation of the Connector — connect, message handling,
established handling, close handling, reconnect scheduling, trigger,
disconnect, the subscription operations, and the delivery of the
transport-open and heartbeat callbacks. -/
theorem sessionId_iff_connected (name : String) (o : KalzeOptionsIn)
    (s : ConnState) (op : Op) (h : Inv s) :
    Inv (mkChannel name o) ∧ Inv (applyOp s op) := by
  constructor
  · exact inv_connect (initState name o) (by simp [Inv, initState])
  · cases op with
    | connectOp => exact inv_connect s h
    | messageOp m =>
      cases m with
      | malformed => exact h
      | established d => exact inv_established s d
      | pong => exact h
      | app ev p => exact inv_emit s ev _ h
    | establishedOp d => exact inv_established s d
    | closeOp code reason => exact inv_close s code reason
    | scheduleOp => exact inv_schedule s h
    | triggerOp p =>
      cases hw : s.ws with
      | none => simpa [applyOp, trigger, hw, Inv] using h
      | some w =>
        by_cases hr : w.readyState = WsReadyState.OPEN <;>
          simpa [applyOp, trigger, hw, hr, Inv] using h
    | disconnectOp => simp [applyOp, disconnect, stopHeartbeat, Inv]
    | onOp ev cb => simpa [applyOp, onEvent, Inv] using h
    | onceOp uid ev id => simpa [applyOp, once, onEvent, Inv] using h
    | offOp ev cb? => simpa [applyOp, off, Inv] using h
    | openDeliveryOp =>
      cases hw : s.ws with
      | none => simpa [applyOp, deliverOpen, hw, Inv] using h
      | some w => simpa [applyOp, deliverOpen, hw, Inv] using h
    | heartbeatTickOp =>
      by_cases hh : s.heartbeatInterval.isSome
      · cases hw : s.ws with
        | none => simpa [applyOp, heartbeatTick, hh, hw, Inv] using h
        | some w =>
          by_cases hr : w.readyState = WsReadyState.OPEN <;>
            simpa [applyOp, heartbeatTick, hh, hw, hr, Inv] using h
      · simpa [applyOp, heartbeatTick, hh, Inv] using h

/-- Witness for C9: the invariant holds on the freshly constructed demo
connector and is preserved when the established demo connector is torn
down by `disconnect`. -/
theorem sessionId_iff_connected_witness :
    Inv (mkChannel "chan" demoOptsIn) ∧
    Inv (applyOp demoConnected Op.disconnectOp) :=
  sessionId_iff_connected "chan" demoOptsIn demoConnected Op.disconnectOp
    (by unfold Inv; decide)

theorem lookupEvent_cons (a : String × List Callback)
    (t : List (String × List Callback)) (ev : String) :
    lookupEvent (a :: t) ev =
      if a.1 == ev then some a.2 else lookupEvent t ev := by
  by_cases h : (a.1 == ev) <;> simp [lookupEvent, List.find?_cons, h]

theorem find?_map_replace (l : List (String × List Callback)) (ev : String)
    (cbs : List Callback) :
    lookupEvent (l.map (fun p => if p.1 == ev then (p.1, cbs) else p)) ev =
      (lookupEvent l ev).map (fun _ => cbs) := by
  induction l with
  | nil => rfl
  | cons a t ih =>
    by_cases h : a.1 = ev
    · simp [List.map_cons, lookupEvent_cons, h]
    · simpa [List.map_cons, lookupEvent_cons, h] using ih

theorem find?_map_replace_ne (l : List (String × List Callback))
    (ev ev2 : String) (cbs : List Callback) (h : ev2 ≠ ev) :
    lookupEvent (l.map (fun p => if p.1 == ev then (p.1, cbs) else p)) ev2 =
      lookupEvent l ev2 := by
  have hev : ev ≠ ev2 := Ne.symm h
  induction l with
  | nil => rfl
  | cons a t ih =>
    by_cases h1 : a.1 = ev
    · have h2 : a.1 ≠ ev2 := by
        rw [h1]
        exact hev
      simpa [List.map_cons, lookupEvent_cons, h1, h2, hev] using ih
    · by_cases h2 : a.1 = ev2
      · simp [List.map_cons, lookupEvent_cons, h1, h2, h]
      · simpa [List.map_cons, lookupEvent_cons, h1, h2] using ih

theorem lookupEvent_setEvent_self (l : List (String × List Callback))
    (ev : String) (cbs : List Callback) :
    lookupEvent (setEvent l ev cbs) ev = some cbs := by
  unfold setEvent
  split
  · rename_i hany
    rw [find?_map_replace]
    have hex : ∃ p ∈ l, (p.1 == ev) := by
      simpa [List.any_eq_true] using hany
    have hsome : (l.find? (fun p => p.1 == ev)).isSome :=
      List.find?_isSome.mpr hex
    cases hl : l.find? (fun p => p.1 == ev) with
    | none => rw [hl] at hsome; simp at hsome
    | some p => simp [lookupEvent, hl]
  · rename_i hany
    have hnone : l.find? (fun p => p.1 == ev) = none := by
      rw [List.find?_eq_none]
      intro x hx hpx
      exact hany (List.any_eq_true.mpr ⟨x, hx, hpx⟩)
    simp [lookupEvent, List.find?_append, hnone, List.find?_cons]

theorem lookupEvent_setEvent_ne (l : List (String × List Callback))
    (ev ev2 : String) (cbs : List Callback) (h : ev2 ≠ ev) :
    lookupEvent (setEvent l ev cbs) ev2 = lookupEvent l ev2 := by
  unfold setEvent
  split
  · exact find?_map_replace_ne l ev ev2 cbs h
  · have hne : ev ≠ ev2 := Ne.symm h
    simp [lookupEvent, List.find?_append, List.find?_cons, hne]

theorem lookupEvent_eraseEvent_self (l : List (String × List Callback))
    (ev : String) :
    lookupEvent (eraseEvent l ev) ev = none := by
  induction l with
  | nil => rfl
  | cons a t ih =>
    by_cases h : a.1 = ev
    · simpa [eraseEvent, List.filter_cons, h] using ih
    · simpa [eraseEvent, List.filter_cons, h, lookupEvent_cons] using ih

theorem lookupEvent_eraseEvent_ne (l : List (String × List Callback))
    (ev ev2 : String) (h : ev2 ≠ ev) :
    lookupEvent (eraseEvent l ev) ev2 = lookupEvent l ev2 := by
  have hev : ev ≠ ev2 := Ne.symm h
  induction l with
  | nil => rfl
  | cons a t ih =>
    by_cases h1 : a.1 = ev
    · have h2 : a.1 ≠ ev2 := by
        rw [h1]
        exact hev
      simpa [eraseEvent, List.filter_cons, h1, lookupEvent_cons, h2, hev] using ih
    · by_cases h2 : a.1 = ev2
      · simp [eraseEvent, List.filter_cons, h1, lookupEvent_cons, h2, h]
      · simpa [eraseEvent, List.filter_cons, h1, lookupEvent_cons, h2] using ih

theorem getListeners_off_self (s : ConnState) (ev : String) (cb : Callback)
    (h : cb ∈ getListeners s ev) :
    getListeners (off s ev (some cb)) ev = (getListeners s ev).erase cb := by
  cases hl : lookupEvent s.eventListeners ev with
  | none =>
    exfalso
    rw [getListeners, hl] at h
    simp at h
  | some cbs =>
    have hg : getListeners s ev = cbs := by rw [getListeners, hl]; rfl
    rw [hg]
    show (lookupEvent (offListeners s.eventListeners ev (some cb)) ev).getD []
      = cbs.erase cb
    unfold offListeners
    rw [hl]
    by_cases he : (cbs.erase cb).isEmpty
    · have : cbs.erase cb = [] := by simpa [List.isEmpty_iff] using he
      simp [he, lookupEvent_eraseEvent_self, this]
    · simp [he, lookupEvent_setEvent_self]

theorem getListeners_off_ne (s : ConnState) (ev ev2 : String)
    (cb? : Option Callback) (h : ev2 ≠ ev) :
    getListeners (off s ev cb?) ev2 = getListeners s ev2 := by
  show (lookupEvent (offListeners s.eventListeners ev cb?) ev2).getD []
    = getListeners s ev2
  cases cb? with
  | none =>
    simp [offListeners, getListeners, lookupEvent_eraseEvent_ne _ _ _ h]
  | some cb =>
    unfold offListeners
    cases hl : lookupEvent s.eventListeners ev with
    | none => rfl
    | some cbs =>
      by_cases he : (cbs.erase cb).isEmpty <;>
        simp [he, getListeners, lookupEvent_eraseEvent_ne _ _ _ h,
          lookupEvent_setEvent_ne _ _ _ _ h]

theorem invokeCb_callLog (s : ConnState) (cb : Callback) :
    (invokeCb s cb).callLog = s.callLog ++ [cb.origId] := by
  cases cb <;> rfl

theorem getListeners_invokeCb_once (s : ConnState) (uid : Nat) (ev : String)
    (id : Nat) (ev2 : String) :
    getListeners (invokeCb s (Callback.onceWrap uid ev id)) ev2 =
      getListeners (off s ev (some (Callback.onceWrap uid ev id))) ev2 := rfl

theorem filter_erase_helper (cb : Callback) (p q : Callback → Bool)
    (hq : q cb = false) (hagree : ∀ c, c ≠ cb → p c = q c) :
    ∀ (L : List Callback), L.Nodup →
      (L.erase cb).filter p = L.filter q := by
  intro L
  induction L with
  | nil => intro _; rfl
  | cons a t ih =>
    intro hnd
    rcases eq_or_ne a cb with rfl | hne
    · have hnotmem : a ∉ t := (List.nodup_cons.mp hnd).1
      rw [List.erase_cons_head, List.filter_cons, hq]
      simp only [Bool.false_eq_true, if_false]
      exact List.filter_congr (fun c hc =>
        hagree c (fun hcc => hnotmem (hcc ▸ hc)))
    · rw [List.erase_cons_tail (by simp [hne]), List.filter_cons,
        List.filter_cons, hagree a hne]
      cases hqa : q a <;>
        simp [ih (List.Nodup.of_cons hnd)]

theorem runCallbacksFuel_once_dispatch (fuel : Nat) (ev : String) :
    ∀ (pending : List Callback) (s : ConnState),
      pending.length ≤ fuel →
      (∀ c ∈ pending, c ∈ getListeners s ev) →
      pending.Nodup →
      (getListeners s ev).Nodup →
      (∀ uid e id, Callback.onceWrap uid e id ∈ pending → e = ev) →
      (runCallbacksFuel fuel s ev pending).callLog
          = s.callLog ++ pending.map Callback.origId ∧
      getListeners (runCallbacksFuel fuel s ev pending) ev
          = (getListeners s ev).filter
              (fun c => c.isPlain || !(decide (c ∈ pending))) ∧
      (∀ e2, e2 ≠ ev →
        getListeners (runCallbacksFuel fuel s ev pending) e2
          = getListeners s e2) := by
  induction fuel with
  | zero =>
    intro pending s hf hsub hnd hndl hwf
    have hp : pending = [] := List.eq_nil_of_length_eq_zero (Nat.le_zero.mp hf)
    subst hp
    refine ⟨by simp [runCallbacksFuel], ?_, fun e2 _ => rfl⟩
    have hall : ∀ c ∈ getListeners s ev,
        (fun c => c.isPlain || !(decide (c ∈ ([] : List Callback)))) c = true := by
      intro c _
      simp
    simp [runCallbacksFuel, (List.filter_eq_self.mpr hall)]
  | succ n ih =>
    intro pending s hf hsub hnd hndl hwf
    cases pending with
    | nil =>
      refine ⟨by simp [runCallbacksFuel], ?_, fun e2 _ => rfl⟩
      have hall : ∀ c ∈ getListeners s ev,
          (fun c => c.isPlain || !(decide (c ∈ ([] : List Callback)))) c = true := by
        intro c _
        simp
      simp [runCallbacksFuel, (List.filter_eq_self.mpr hall)]
    | cons cb rest =>
      have hcbmem : cb ∈ getListeners s ev := hsub cb (List.mem_cons_self cb rest)
      have hcbnotrest : cb ∉ rest := (List.nodup_cons.mp hnd).1
      have hndrest : rest.Nodup := (List.nodup_cons.mp hnd).2
      have hfrest : rest.length ≤ n := Nat.le_of_succ_le_succ hf
      cases cb with
      | plain id =>
        have hstep : runCallbacksFuel (n + 1) s ev (Callback.plain id :: rest)
            = runCallbacksFuel n (invokeCb s (Callback.plain id)) ev
              (rest.filter (fun c => decide
                (c ∈ getListeners (invokeCb s (Callback.plain id)) ev))) := rfl
        have hget : ∀ e2, getListeners (invokeCb s (Callback.plain id)) e2
            = getListeners s e2 := fun e2 => rfl
        have hpend : rest.filter (fun c => decide
            (c ∈ getListeners (invokeCb s (Callback.plain id)) ev)) = rest := by
          refine List.filter_eq_self.mpr ?_
          intro c hc
          rw [hget]
          exact decide_eq_true (hsub c (List.mem_cons_of_mem _ hc))
        obtain ⟨ihlog, ihev, ihne⟩ := ih rest (invokeCb s (Callback.plain id))
          hfrest
          (fun c hc => by
            rw [hget]
            exact hsub c (List.mem_cons_of_mem _ hc))
          hndrest
          (by rw [hget]; exact hndl)
          (fun uid e id2 hmem => hwf uid e id2 (List.mem_cons_of_mem _ hmem))
        rw [hstep, hpend]
        refine ⟨?_, ?_, ?_⟩
        · rw [ihlog]
          simp [invokeCb, Callback.origId]
        · rw [ihev, hget]
          refine List.filter_congr ?_
          intro c hc
          cases c with
          | plain id2 => simp [Callback.isPlain]
          | onceWrap uid2 e2 id2 =>
            simp only [Callback.isPlain, Bool.false_or]
            have hiff : (Callback.onceWrap uid2 e2 id2
                ∈ Callback.plain id :: rest)
                ↔ (Callback.onceWrap uid2 e2 id2 ∈ rest) := by
              simp
            simp [hiff]
        · intro e2 he2
          rw [ihne e2 he2, hget]
      | onceWrap uid e id =>
        have he : e = ev := hwf uid e id (List.mem_cons_self _ _)
        subst he
        have hstep : runCallbacksFuel (n + 1) s e
            (Callback.onceWrap uid e id :: rest)
            = runCallbacksFuel n (invokeCb s (Callback.onceWrap uid e id)) e
              (rest.filter (fun c => decide
                (c ∈ getListeners
                  (invokeCb s (Callback.onceWrap uid e id)) e))) := rfl
        have hgetev : getListeners (invokeCb s (Callback.onceWrap uid e id)) e
            = (getListeners s e).erase (Callback.onceWrap uid e id) := by
          rw [getListeners_invokeCb_once]
          exact getListeners_off_self s e _ hcbmem
        have hgetne : ∀ e2, e2 ≠ e →
            getListeners (invokeCb s (Callback.onceWrap uid e id)) e2
              = getListeners s e2 := by
          intro e2 he2
          rw [getListeners_invokeCb_once]
          exact getListeners_off_ne s e e2 _ he2
        have hpend : rest.filter (fun c => decide
            (c ∈ getListeners (invokeCb s (Callback.onceWrap uid e id)) e))
            = rest := by
          refine List.filter_eq_self.mpr ?_
          intro c hc
          rw [hgetev]
          refine decide_eq_true ?_
          refine (List.mem_erase_of_ne ?_).mpr
            (hsub c (List.mem_cons_of_mem _ hc))
          intro hcc
          exact hcbnotrest (hcc ▸ hc)
        obtain ⟨ihlog, ihev, ihne⟩ := ih rest
          (invokeCb s (Callback.onceWrap uid e id))
          hfrest
          (fun c hc => by
            rw [hgetev]
            refine (List.mem_erase_of_ne ?_).mpr
              (hsub c (List.mem_cons_of_mem _ hc))
            intro hcc
            exact hcbnotrest (hcc ▸ hc))
          hndrest
          (by rw [hgetev]; exact hndl.erase _)
          (fun uid2 e2 id2 hmem => hwf uid2 e2 id2 (List.mem_cons_of_mem _ hmem))
        rw [hstep, hpend]
        refine ⟨?_, ?_, ?_⟩
        · rw [ihlog, invokeCb_callLog]
          simp [Callback.origId]
        · rw [ihev, hgetev]
          refine filter_erase_helper (Callback.onceWrap uid e id) _ _ ?_ ?_
            (getListeners s e) hndl
          · simp [Callback.isPlain]
          · intro c hcne
            have hiff : (c ∈ Callback.onceWrap uid e id :: rest)
                ↔ (c ∈ rest) := by
              simp [hcne]
            simp [hiff]
        · intro e2 he2
          rw [ihne e2 he2, hgetne e2 he2]

theorem runCallbacks_nil (s : ConnState) (ev : String)
    (h : getListeners s ev = []) :
    runCallbacks s ev (getListeners s ev) = s := by
  unfold runCallbacks
  rw [h]
  rfl

/-- Claim C10: dispatching an event to its registered callbacks delivers
the dispatch to every callback exactly once and in registration order,
even though a `once` wrapper unsubscribes itself (before invoking its
original callback) in the middle of the iteration — the self-removal does
not affect delivery to the other callbacks of the same event; afterwards
exactly the `once` wrappers are gone from the registration set.  Stated
for an event with no wildcard subscribers, whose wrappers were registered
under this event and whose registration set is duplicate-free, as a
JavaScript `Set` guarantees. -/
theorem once_selfUnsub_delivery (s : ConnState) (ev : String)
    (d : EventData)
    (hev : ev ≠ "*")
    (hnw : getListeners s "*" = [])
    (hndl : (getListeners s ev).Nodup)
    (hwf : ∀ uid e id,
      Callback.onceWrap uid e id ∈ getListeners s ev → e = ev) :
    (emit s ev d).callLog =
      s.callLog ++ (getListeners s ev).map Callback.origId ∧
    getListeners (emit s ev d) ev =
      (getListeners s ev).filter Callback.isPlain := by
  obtain ⟨hlog1, hev1, hne1⟩ := runCallbacksFuel_once_dispatch
    (getListeners s ev).length ev (getListeners s ev)
    { s with trace := s.trace ++ [(ev, d)] }
    le_rfl (fun c hc => hc) hndl hndl hwf
  have hS1w : getListeners
      (runCallbacks { s with trace := s.trace ++ [(ev, d)] } ev
        (getListeners { s with trace := s.trace ++ [(ev, d)] } ev)) "*"
      = [] := by
    have h2 := hne1 "*" (Ne.symm hev)
    exact h2.trans hnw
  have hemit : emit s ev d =
      runCallbacks { s with trace := s.trace ++ [(ev, d)] } ev
        (getListeners { s with trace := s.trace ++ [(ev, d)] } ev) :=
    runCallbacks_nil _ "*" hS1w
  rw [hemit]
  constructor
  · exact hlog1
  · have hconv : (getListeners s ev).filter
        (fun c => c.isPlain || !(decide (c ∈ getListeners s ev)))
        = (getListeners s ev).filter Callback.isPlain :=
      List.filter_congr (fun c hc => by simp [hc])
    exact hev1.trans hconv

/-- Witness for C10 on the demo registration set for the event `foo`: a
`once` wrapper around callback 1 followed by the plain callbacks 2 and 3.
Dispatching `foo` invokes 1, 2 and 3 exactly once each, in order, and
leaves exactly the two plain callbacks registered. -/
theorem once_selfUnsub_delivery_witness :
    (emit demoDispatch "foo" (EventData.appData demoPayload)).callLog
      = [1, 2, 3] ∧
    getListeners (emit demoDispatch "foo" (EventData.appData demoPayload))
      "foo" = [Callback.plain 2, Callback.plain 3] := by
  obtain ⟨h1, h2⟩ := once_selfUnsub_delivery demoDispatch "foo"
    (EventData.appData demoPayload)
    (by decide)
    (by decide)
    (by decide)
    (by
      intro uid e id hmem
      have hl : getListeners demoDispatch "foo" =
          [Callback.onceWrap 0 "foo" 1, Callback.plain 2,
           Callback.plain 3] := by decide
      rw [hl] at hmem
      simp at hmem
      exact hmem.2.1)
  constructor
  · rw [h1]
    decide
  · rw [h2]
    decide

end KalzeChannel
